import Mathlib

/-!
Shallow embedding of the `embedded-hal-timer` crate (tweedegolf), covering:

* `src/lib.rs` — the `Timer`/`Alarm` contract and the `OverflowError` type;
* `src/impl_embassy_stm32.rs` — the hardware driver implementing `Timer`
  against a 16-bit STM32 auto-reload counter peripheral;
* `src/impl_embassy_time.rs` — the software-clock backed `EmbassyTimeTimer`
  implementing both `Timer` and `Alarm` on top of `embassy_time::Instant`.

Machine integers are modelled as `Nat` with explicit `% 2^w` where the Rust
code performs a narrowing cast or where wrapping matters; `Result<T,
OverflowError>` becomes `Except OverflowError T`; a Rust division that can
panic (divide by zero) becomes an `Option`-returning function where `none`
is the panic.
-/

/-- `OverflowError` from `src/lib.rs`: the single, payload-free error kind. -/
structure OverflowError where
deriving DecidableEq, Repr

instance : DecidableEq (Except OverflowError Nat) := fun a b =>
  match a, b with
  | .error _, .error _ => isTrue rfl
  | .ok x, .ok y =>
    if h : x = y then isTrue (by rw [h]) else isFalse (by intro hc; cases hc; exact h rfl)
  | .error _, .ok _ => isFalse (by intro hc; cases hc)
  | .ok _, .error _ => isFalse (by intro hc; cases hc)

instance : DecidableEq (Except OverflowError Unit) := fun a b =>
  match a, b with
  | .error _, .error _ => isTrue rfl
  | .ok _, .ok _ => isTrue rfl
  | .error _, .ok _ => isFalse (by intro hc; cases hc)
  | .ok _, .error _ => isFalse (by intro hc; cases hc)

/-- `u32::MAX`. -/
def u32Max : Nat := 2 ^ 32 - 1

/-- `u64::MAX`, the tick count of `embassy_time::Instant::MAX`. -/
def u64Max : Nat := 2 ^ 64 - 1

namespace Stm32

/-- The observable register state of the STM32 core timer peripheral used by
`impl_embassy_stm32.rs`: control bits of CR1 (`urs`, `opm`, `udis`, `cen`),
the auto-reload register `arr`, the counter `cnt`, the update/overflow flag
`uif` of SR, the prescaler `psc`, and the peripheral input clock frequency
reported by `get_clock_frequency()`. 16-bit registers are masked at read
and write sites. -/
structure TimRegs where
  urs : Bool       -- CR1.URS: true = Urs::COUNTER_ONLY
  opm : Bool       -- CR1.OPM: one-pulse mode
  udis : Bool      -- CR1.UDIS: update disable
  cen : Bool       -- CR1.CEN: counter enable
  arr : Nat        -- ARR, 16-bit
  cnt : Nat        -- CNT, 16-bit
  uif : Bool       -- SR.UIF: update (overflow) flag
  psc : Nat        -- PSC, 16-bit
  clockFreq : Nat  -- get_clock_frequency().0, u32 Hz
deriving DecidableEq, Repr

/-- One register-level operation performed by the driver's `start()`. -/
inductive RegOp where
  | setUrsCounterOnly : RegOp          -- reg.set_urs(Urs::COUNTER_ONLY)
  | setOpm : Bool → RegOp              -- reg.set_opm(b)
  | setUdis : Bool → RegOp             -- reg.set_udis(b)
  | writeArr : Nat → RegOp             -- arr().write(|r| r.set_arr(v))
  | forceUpdateEvent : RegOp           -- egr().write(|r| r.set_ug(true))
  | clearUif : RegOp                   -- sr().modify(|r| r.set_uif(false))
  | resetCounter : RegOp               -- Timer::reset: cnt().write(0)
  | setCen : Bool → RegOp              -- Timer::start: cr1.set_cen(true)
deriving DecidableEq, Repr

/-- Hardware semantics of a single register operation. A forced update event
(EGR.UG) re-initializes the counter; with CR1.URS = COUNTER_ONLY the
software-generated update does not set UIF, otherwise it does. -/
def applyOp (s : TimRegs) : RegOp → TimRegs
  | .setUrsCounterOnly => { s with urs := true }
  | .setOpm b => { s with opm := b }
  | .setUdis b => { s with udis := b }
  | .writeArr v => { s with arr := v % 65536 }
  | .forceUpdateEvent => { s with cnt := 0, uif := if s.urs then s.uif else true }
  | .clearUif => { s with uif := false }
  | .resetCounter => { s with cnt := 0 }
  | .setCen b => { s with cen := b }

/-- The exact sequence of register operations executed (inside one
`critical_section::with`) by `start()` in `impl_embassy_stm32.rs`, in
program order. -/
def startOps : List RegOp :=
  [.setUrsCounterOnly, .setOpm true, .setUdis false,
   .writeArr 65535,
   .forceUpdateEvent,
   .clearUif,
   .resetCounter,
   .setCen true]

/-- `<Timer as crate::Timer>::start` from `impl_embassy_stm32.rs`: run the
whole `startOps` sequence atomically. -/
def start (s : TimRegs) : TimRegs := startOps.foldl applyOp s

/-- `tickrate()`: `get_clock_frequency().0 / (psc().read() + 1) as u32`.
`psc().read()` is a u16, so the `+ 1` is a u16 addition: at PSC = 0xFFFF it
overflows — a panic in debug, a wrap to a zero divisor and hence a
division-by-zero panic in release. `none` models that panic. Otherwise the
u32 quotient is returned; it is zero whenever the clock frequency is
smaller than `psc + 1`. -/
def tickrate (s : TimRegs) : Option Nat :=
  if s.psc % 65536 = 65535 then none
  else some (s.clockFreq % 2 ^ 32 / (s.psc % 65536 + 1))

/-- `elapsed_ticks()`: return `Err(OverflowError)` if SR.UIF is set,
otherwise the raw 16-bit counter value. Only reads registers. -/
def elapsed_ticks (s : TimRegs) : Except OverflowError Nat :=
  if s.uif then .error {} else .ok (s.cnt % 65536)

/-- Stateful form of `elapsed_ticks()`: the method takes `&self` and
performs no register write, so the register state is returned unchanged. -/
def elapsed_ticksSt (s : TimRegs) : Except OverflowError Nat × TimRegs :=
  (elapsed_ticks s, s)

/-- `elapsed_micros()`:
`((elapsed_ticks()? as u64 * 1_000_000u64) / tickrate() as u64) as u32`.
`elapsed_ticks()?` short-circuits first; then the product and division are
u64 operations and the result is cast to u32. `none` models a panic:
either inside `tickrate()` itself (the u16 `psc + 1` overflow) or the
division by a zero tick rate. -/
def elapsed_micros (s : TimRegs) : Option (Except OverflowError Nat) :=
  match elapsed_ticks s with
  | .error e => some (.error e)
  | .ok t =>
    match tickrate s with
    | none => none
    | some r => if r = 0 then none else some (.ok (t * 1000000 % 2 ^ 64 / r % 2 ^ 32))

/-- `elapsed_millis()`: `(elapsed_ticks()? * 1000) / tickrate()`, all in u32
arithmetic. `none` models a panic in `tickrate()` or the division by a
zero tick rate. -/
def elapsed_millis (s : TimRegs) : Option (Except OverflowError Nat) :=
  match elapsed_ticks s with
  | .error e => some (.error e)
  | .ok t =>
    match tickrate s with
    | none => none
    | some r => if r = 0 then none else some (.ok (t * 1000 % 2 ^ 32 / r))

/-- `elapsed_secs()`: `elapsed_ticks()? / tickrate()` in u32 arithmetic.
`none` models a panic in `tickrate()` or the division by a zero tick
rate. -/
def elapsed_secs (s : TimRegs) : Option (Except OverflowError Nat) :=
  match elapsed_ticks s with
  | .error e => some (.error e)
  | .ok t =>
    match tickrate s with
    | none => none
    | some r => if r = 0 then none else some (.ok (t / r))

/-- `max_ticks()`: `u16::MAX as u32`. -/
def max_ticks (_s : TimRegs) : Nat := 65535

/-- `max_micros()`:
`((max_ticks() as u64 * 1_000_000u64) / tickrate() as u64) as u32`. -/
def max_micros (s : TimRegs) : Option Nat :=
  match tickrate s with
  | none => none
  | some r => if r = 0 then none else some (max_ticks s * 1000000 % 2 ^ 64 / r % 2 ^ 32)

/-- `max_millis()`: `(max_ticks() * 1000) / tickrate()` in u32 arithmetic. -/
def max_millis (s : TimRegs) : Option Nat :=
  match tickrate s with
  | none => none
  | some r => if r = 0 then none else some (max_ticks s * 1000 % 2 ^ 32 / r)

/-- `max_secs()`: `max_ticks() / tickrate()` in u32 arithmetic. -/
def max_secs (s : TimRegs) : Option Nat :=
  match tickrate s with
  | none => none
  | some r => if r = 0 then none else some (max_ticks s / r)

/-- One hardware counter increment while the peripheral runs: if CEN is
clear nothing happens; if CNT has reached ARR the counter overflows — an
update event fires (setting UIF unless updates are disabled), CNT
re-initializes to 0, and one-pulse mode clears CEN; otherwise CNT
increments. -/
def tick (s : TimRegs) : TimRegs :=
  if s.cen = false then s
  else if s.cnt % 65536 = s.arr % 65536 then
    { s with cnt := 0,
             uif := if s.udis then s.uif else true,
             cen := if s.opm then false else s.cen }
  else { s with cnt := (s.cnt + 1) % 65536 }

end Stm32

namespace EmbTime

/-! Model of `impl_embassy_time.rs`. The external dependency `embassy_time`
is modelled from its published semantics: an `Instant` is a `u64` tick count
of a monotonic clock running at the compile-time constant `TICK_HZ`;
`Instant::as_micros` is `ticks * (1_000_000 / gcd(TICK_HZ, 1_000_000)) /
(TICK_HZ / gcd(TICK_HZ, 1_000_000))`, analogously for millis with 1_000,
and `as_secs` is `ticks / TICK_HZ`; `Duration::from_micros/millis` round
the tick count up (`div_ceil`) and `Duration::from_secs` is `secs *
TICK_HZ`. `TICK_HZ` appears as the parameter `hz` below. -/

/-- `embassy_time::Instant::as_micros` for a tick count at rate `hz`. -/
def instantAsMicros (hz ticks : Nat) : Nat :=
  ticks * (1000000 / Nat.gcd hz 1000000) / (hz / Nat.gcd hz 1000000)

/-- `embassy_time::Instant::as_millis` for a tick count at rate `hz`. -/
def instantAsMillis (hz ticks : Nat) : Nat :=
  ticks * (1000 / Nat.gcd hz 1000) / (hz / Nat.gcd hz 1000)

/-- `embassy_time::Instant::as_secs` for a tick count at rate `hz`. -/
def instantAsSecs (hz ticks : Nat) : Nat := ticks / hz

/-- Ceiling division, as `embassy_time`'s `div_ceil`. -/
def divCeil (a b : Nat) : Nat := (a + b - 1) / b

/-- `embassy_time::Duration::from_micros(v).as_ticks()` at rate `hz`. -/
def durFromMicros (hz v : Nat) : Nat :=
  divCeil (v * (hz / Nat.gcd hz 1000000)) (1000000 / Nat.gcd hz 1000000)

/-- `embassy_time::Duration::from_millis(v).as_ticks()` at rate `hz`. -/
def durFromMillis (hz v : Nat) : Nat :=
  divCeil (v * (hz / Nat.gcd hz 1000)) (1000 / Nat.gcd hz 1000)

/-- `embassy_time::Duration::from_secs(v).as_ticks()` at rate `hz`. -/
def durFromSecs (hz v : Nat) : Nat := v * hz

/-- `EmbassyTimeTimer(Mutex<Cell<u64>>)`: the stored epoch, an `Instant`
tick count captured at construction or at the last `start()`. -/
structure EmbassyTimeTimer where
  epoch : Nat
deriving DecidableEq, Repr

/-- `EmbassyTimeTimer::new()`: store `Instant::now().as_ticks()`; `now` is
the current instant of the monotonic clock. -/
def new (now : Nat) : EmbassyTimeTimer := ⟨now⟩

/-- `Timer::start` for `EmbassyTimeTimer`: overwrite the cell with
`Instant::now().as_ticks()`. -/
def start (_t : EmbassyTimeTimer) (now : Nat) : EmbassyTimeTimer := ⟨now⟩

/-- `EmbassyTimeTimer::get_instant`: read the cell; no write occurs. -/
def get_instant (t : EmbassyTimeTimer) : Nat := t.epoch

/-- `get_instant().elapsed().as_ticks()`: `Instant::now() - stored`;
requires `now ≥ epoch` (monotonic clock, epoch captured from `now`). -/
def elapsedTicks (t : EmbassyTimeTimer) (now : Nat) : Nat := now - t.epoch

/-- `elapsed_micros()`: `u32::try_from(get_instant().elapsed().as_micros())
.map_err(|_| OverflowError)`. -/
def elapsed_micros (hz : Nat) (t : EmbassyTimeTimer) (now : Nat) :
    Except OverflowError Nat :=
  let v := instantAsMicros hz (elapsedTicks t now)
  if v ≤ u32Max then .ok v else .error {}

/-- `elapsed_millis()` for `EmbassyTimeTimer`. -/
def elapsed_millis (hz : Nat) (t : EmbassyTimeTimer) (now : Nat) :
    Except OverflowError Nat :=
  let v := instantAsMillis hz (elapsedTicks t now)
  if v ≤ u32Max then .ok v else .error {}

/-- `elapsed_secs()` for `EmbassyTimeTimer`. -/
def elapsed_secs (hz : Nat) (t : EmbassyTimeTimer) (now : Nat) :
    Except OverflowError Nat :=
  let v := instantAsSecs hz (elapsedTicks t now)
  if v ≤ u32Max then .ok v else .error {}

/-- `max_micros()`: `Instant::MAX.as_micros().try_into().unwrap_or(u32::MAX)`. -/
def max_micros (hz : Nat) : Nat := min (instantAsMicros hz u64Max) u32Max

/-- `max_millis()`: `Instant::MAX.as_millis().try_into().unwrap_or(u32::MAX)`. -/
def max_millis (hz : Nat) : Nat := min (instantAsMillis hz u64Max) u32Max

/-- `max_secs()`: `Instant::MAX.as_secs().try_into().unwrap_or(u32::MAX)`. -/
def max_secs (hz : Nat) : Nat := min (instantAsSecs hz u64Max) u32Max

/-- `Alarm::wait_until_micros` for `EmbassyTimeTimer`: awaits
`embassy_time::Timer::at(get_instant() + Duration::from_micros(value))`
then returns `Ok(())`. The model returns the result, the timer state after
the call (the cell is only read, never written), and the deadline instant
the task suspends until. -/
def wait_until_micros (hz : Nat) (t : EmbassyTimeTimer) (value : Nat) :
    Except OverflowError Unit × EmbassyTimeTimer × Nat :=
  (.ok (), t, get_instant t + durFromMicros hz value)

/-- `Alarm::wait_until_millis` for `EmbassyTimeTimer`. -/
def wait_until_millis (hz : Nat) (t : EmbassyTimeTimer) (value : Nat) :
    Except OverflowError Unit × EmbassyTimeTimer × Nat :=
  (.ok (), t, get_instant t + durFromMillis hz value)

/-- `Alarm::wait_until_secs` for `EmbassyTimeTimer`. -/
def wait_until_secs (hz : Nat) (t : EmbassyTimeTimer) (value : Nat) :
    Except OverflowError Unit × EmbassyTimeTimer × Nat :=
  (.ok (), t, get_instant t + durFromSecs hz value)

end EmbTime

/-! Concrete register states used to instantiate or refute the properties. -/

/-- A state right before an `elapsed_micros()` read at tick rate 1 Hz with a
full counter: `clockFreq = 1`, `psc = 0`, `cnt = 65535`, no overflow. -/
def cexLowRate : Stm32.TimRegs :=
  { urs := true, opm := true, udis := false, cen := true,
    arr := 65535, cnt := 65535, uif := false, psc := 0, clockFreq := 1 }

/-- A state at tick rate 16 Hz with a full counter and no overflow. -/
def rate16State : Stm32.TimRegs :=
  { urs := true, opm := true, udis := false, cen := true,
    arr := 65535, cnt := 65535, uif := false, psc := 0, clockFreq := 16 }

/-- A reachable state whose clock frequency (1 Hz) is smaller than
`psc + 1 = 2`, so `tickrate()` is zero. -/
def zeroRateState : Stm32.TimRegs :=
  { urs := true, opm := true, udis := false, cen := true,
    arr := 65535, cnt := 100, uif := false, psc := 1, clockFreq := 1 }

/-- A reachable state with the prescaler at its maximum, PSC = 0xFFFF, where
the source's u16 `psc().read() + 1` overflows and `tickrate()` panics. -/
def pscMaxState : Stm32.TimRegs :=
  { urs := true, opm := true, udis := false, cen := true,
    arr := 65535, cnt := 100, uif := false, psc := 65535, clockFreq := 16000000 }

/-- A state whose overflow flag is latched. -/
def overflowedState : Stm32.TimRegs :=
  { urs := true, opm := true, udis := false, cen := false,
    arr := 65535, cnt := 0, uif := true, psc := 0, clockFreq := 1000000 }

/-! Helper lemmas about the gcd-reduced divisions of `embassy_time`. -/

/-- Reducing numerator and denominator by a common divisor of the
denominator does not change an exact-multiply-then-floor-divide. -/
theorem gcd_reduced_div (hz b n : Nat) :
    n * (b / Nat.gcd hz b) / (hz / Nat.gcd hz b) = n * b / hz := by
  have hdb : Nat.gcd hz b ∣ b := Nat.gcd_dvd_right hz b
  have hdh : Nat.gcd hz b ∣ hz := Nat.gcd_dvd_left hz b
  rw [← Nat.mul_div_assoc n hdb, Nat.div_div_eq_div_mul, Nat.mul_div_cancel' hdh]

/-- `Instant::as_micros` computes exactly `floor(ticks * 1_000_000 / hz)`. -/
theorem instantAsMicros_eq (hz n : Nat) :
    EmbTime.instantAsMicros hz n = n * 1000000 / hz :=
  gcd_reduced_div hz 1000000 n

/-- `Instant::as_millis` computes exactly `floor(ticks * 1_000 / hz)`. -/
theorem instantAsMillis_eq (hz n : Nat) :
    EmbTime.instantAsMillis hz n = n * 1000 / hz :=
  gcd_reduced_div hz 1000 n

/-- C3: immediately after `start()` on the hardware driver, from any prior
register state, the counter reads 0 and the overflow latch (SR.UIF) is
clear, so `elapsed_ticks()` returns `Ok(0)`. -/
theorem start_resets_counter_and_latch (s : Stm32.TimRegs) :
    (Stm32.start s).cnt = 0 ∧ (Stm32.start s).uif = false ∧
    Stm32.elapsed_ticks (Stm32.start s) = .ok 0 := by
  simp [Stm32.start, Stm32.startOps, Stm32.applyOp, Stm32.elapsed_ticks]

/-- C4: the hardware driver's `elapsed_ticks()` returns `Err(OverflowError)`
exactly when the overflow flag SR.UIF is set, returns `Ok` with the raw
16-bit counter value exactly when it is clear, and modifies no register
(its stateful form returns the register state unchanged). -/
theorem elapsed_ticks_flag_first (s : Stm32.TimRegs) :
    (Stm32.elapsed_ticks s = .error {} ↔ s.uif = true) ∧
    (Stm32.elapsed_ticks s = .ok (s.cnt % 65536) ↔ s.uif = false) ∧
    (Stm32.elapsed_ticksSt s).2 = s := by
  unfold Stm32.elapsed_ticks Stm32.elapsed_ticksSt
  cases h : s.uif <;> simp

/-- C7: the operation trace of the hardware driver's `start()` contains, in
program order: set CR1.URS to counter-overflow-only and enable one-pulse
mode, program ARR to 65535, force an update event (EGR.UG) and then clear
the spuriously-settable overflow flag (SR.UIF), reset the counter to 0 and
start counting (CR1.CEN); and `start` is exactly the atomic fold of its
trace over the register semantics. -/
theorem start_trace_order :
    List.Sublist
      [Stm32.RegOp.setUrsCounterOnly, .setOpm true, .writeArr 65535,
       .forceUpdateEvent, .clearUif, .resetCounter, .setCen true]
      Stm32.startOps ∧
    ∀ s, Stm32.start s = Stm32.startOps.foldl Stm32.applyOp s :=
  ⟨by decide, fun _ => rfl⟩

/-- C5: once SR.UIF is set, every `elapsed_ticks/micros/millis/secs()` call
returns `Err(OverflowError)`; a hardware counter step never clears the
flag; the read-only `elapsed_ticks` leaves the registers untouched; and
`start()` clears the flag — the only modelled operation that does. -/
theorem overflowed_is_terminal (s : Stm32.TimRegs) (h : s.uif = true) :
    Stm32.elapsed_ticks s = .error {} ∧
    Stm32.elapsed_micros s = some (.error {}) ∧
    Stm32.elapsed_millis s = some (.error {}) ∧
    Stm32.elapsed_secs s = some (.error {}) ∧
    (Stm32.tick s).uif = true ∧
    (Stm32.elapsed_ticksSt s).2 = s ∧
    (Stm32.start s).uif = false := by
  refine ⟨?_, ?_, ?_, ?_, ?_, rfl, ?_⟩
  · simp [Stm32.elapsed_ticks, h]
  · simp [Stm32.elapsed_micros, Stm32.elapsed_ticks, h]
  · simp [Stm32.elapsed_millis, Stm32.elapsed_ticks, h]
  · simp [Stm32.elapsed_secs, Stm32.elapsed_ticks, h]
  · unfold Stm32.tick
    split
    · exact h
    · split
      · simp [h]
      · exact h
  · simp [Stm32.start, Stm32.startOps, Stm32.applyOp]

/-- Witness for C5 at a concrete overflowed state. -/
theorem overflowed_is_terminal_witness :
    Stm32.elapsed_micros overflowedState = some (.error {}) :=
  (overflowed_is_terminal overflowedState rfl).2.1

/-- C1 counterexample: at tick rate R = 1 with t = 65535 ticks elapsed,
`floor(t * 1_000_000 / R) = 65_535_000_000` exceeds `u32::MAX`, and the
driver's final `as u32` cast truncates it to 1_110_490_560, so
`elapsed_micros()` does not return `floor(t * 1_000_000 / R)`. -/
theorem elapsed_micros_cast_truncates :
    Stm32.tickrate cexLowRate = some 1 ∧
    Stm32.elapsed_ticks cexLowRate = .ok 65535 ∧
    65535 * 1000000 / 1 = 65535000000 ∧
    Stm32.elapsed_micros cexLowRate = some (.ok 1110490560) ∧
    Stm32.elapsed_micros cexLowRate ≠ some (.ok (65535 * 1000000 / 1)) := by
  refine ⟨rfl, rfl, by decide, by decide, ?_⟩
  decide

/-- C1 (amended): for every register state where `tickrate()` returns a
value R > 0 (in particular PSC ≠ 0xFFFF, where `tickrate()` itself panics
on the u16 `psc + 1` overflow) and the overflow flag is clear, the 64-bit
intermediate product `t * 1_000_000` never overflows, `elapsed_micros()`
returns `floor(t * 1_000_000 / R) mod 2^32`, and whenever
`floor(t * 1_000_000 / R) ≤ u32::MAX` (in particular for every R ≥ 16) the
final `u32` cast loses nothing and the result is exactly
`floor(t * 1_000_000 / R)`. -/
theorem elapsed_micros_exact (s : Stm32.TimRegs) (r : Nat) (hu : s.uif = false)
    (ht : Stm32.tickrate s = some r) (hr : 0 < r) :
    s.cnt % 65536 * 1000000 < 2 ^ 64 ∧
    Stm32.elapsed_micros s = some (.ok (s.cnt % 65536 * 1000000 / r % 2 ^ 32)) ∧
    (s.cnt % 65536 * 1000000 / r ≤ u32Max →
      Stm32.elapsed_micros s = some (.ok (s.cnt % 65536 * 1000000 / r))) := by
  have htc : s.cnt % 65536 < 65536 := Nat.mod_lt _ (by norm_num)
  have h1 : s.cnt % 65536 * 1000000 < 2 ^ 64 := by
    calc s.cnt % 65536 * 1000000 ≤ 65535 * 1000000 :=
          Nat.mul_le_mul_right _ (Nat.le_of_lt_succ htc)
      _ < 2 ^ 64 := by norm_num
  have he : Stm32.elapsed_micros s =
      some (.ok (s.cnt % 65536 * 1000000 / r % 2 ^ 32)) := by
    simp [Stm32.elapsed_micros, Stm32.elapsed_ticks, hu, ht, Nat.pos_iff_ne_zero.mp hr]
    have h1e : s.cnt % 65536 * 1000000 < 18446744073709551616 := by omega
    rw [Nat.mod_eq_of_lt h1e]
  refine ⟨h1, he, fun hle => ?_⟩
  have hlt : s.cnt % 65536 * 1000000 / r < 2 ^ 32 := by
    unfold u32Max at hle; omega
  rw [he, Nat.mod_eq_of_lt hlt]

/-- Witness for C1 (amended) at tick rate 16 with a full counter:
`floor(65535 * 1_000_000 / 16) = 4_095_937_500 ≤ u32::MAX`. -/
theorem elapsed_micros_exact_witness :
    Stm32.elapsed_micros rate16State = some (.ok 4095937500) :=
  (elapsed_micros_exact rate16State 16 rfl (by decide) (by decide)).2.2 (by decide)

/-- C6 counterexample: at tick rate R = 1,
`floor(max_ticks() * 1_000_000 / R) = 65_535_000_000` exceeds `u32::MAX`,
and `max_micros()`'s final `as u32` cast truncates it to 1_110_490_560, so
`max_micros()` is not `floor(65535 * 1_000_000 / R)`. -/
theorem max_micros_cast_truncates :
    Stm32.tickrate cexLowRate = some 1 ∧
    Stm32.max_ticks cexLowRate * 1000000 / 1 = 65535000000 ∧
    Stm32.max_micros cexLowRate = some 1110490560 ∧
    Stm32.max_micros cexLowRate ≠ some (Stm32.max_ticks cexLowRate * 1000000 / 1) := by
  refine ⟨rfl, by decide, by decide, ?_⟩
  decide

/-- C6 (amended): `max_ticks()` is 65535, and for every register state
where `tickrate()` returns a value R > 0 (in particular PSC ≠ 0xFFFF,
where `tickrate()` itself panics on the u16 `psc + 1` overflow):
`max_millis() = floor(65535 * 1000 / R)` and `max_secs() = floor(65535 / R)`
exactly; `max_micros() = floor(65535 * 1_000_000 / R) mod 2^32`, which
equals `floor(65535 * 1_000_000 / R)` exactly whenever that quotient is at
most `u32::MAX` (in particular for every R ≥ 16), so the derived bounds are
internally consistent with `max_ticks()` except for the `u32` truncation of
`max_micros()` at tick rates 15 and below. -/
theorem max_bounds_consistent (s : Stm32.TimRegs) (r : Nat)
    (ht : Stm32.tickrate s = some r) (hr : 0 < r) :
    Stm32.max_ticks s = 65535 ∧
    Stm32.max_millis s = some (65535 * 1000 / r) ∧
    Stm32.max_secs s = some (65535 / r) ∧
    Stm32.max_micros s = some (65535 * 1000000 / r % 2 ^ 32) ∧
    (65535 * 1000000 / r ≤ u32Max →
      Stm32.max_micros s = some (65535 * 1000000 / r)) := by
  have hne : r ≠ 0 := Nat.pos_iff_ne_zero.mp hr
  have hmu : Stm32.max_micros s = some (65535 * 1000000 / r % 2 ^ 32) := by
    simp only [Stm32.max_micros, ht]
    rw [if_neg hne]
    norm_num [Stm32.max_ticks]
  refine ⟨rfl, ?_, ?_, hmu, fun hle => ?_⟩
  · simp only [Stm32.max_millis, ht]
    rw [if_neg hne]
    norm_num [Stm32.max_ticks]
  · simp only [Stm32.max_secs, ht]
    rw [if_neg hne]
    norm_num [Stm32.max_ticks]
  · have hlt : 65535 * 1000000 / r < 2 ^ 32 := by
      unfold u32Max at hle; omega
    rw [hmu, Nat.mod_eq_of_lt hlt]

/-- Witness for C6 (amended) at tick rate 16. -/
theorem max_bounds_consistent_witness :
    Stm32.max_millis rate16State = some 4095937 ∧
    Stm32.max_secs rate16State = some 4095 ∧
    Stm32.max_micros rate16State = some 4095937500 := by
  have h := max_bounds_consistent rate16State 16 (by decide) (by decide)
  exact ⟨h.2.1, h.2.2.1, h.2.2.2.2 (by decide)⟩

/-- C10: `elapsed_millis/secs()` and `max_millis/secs()` divide by
`tickrate()`; whenever `tickrate()` returns a positive value they are
panic-free (return a value); at the reachable register state
`zeroRateState` — clock frequency 1 Hz, prescaler 1, so
`clockFreq < psc + 1` — `tickrate()` returns 0 and each of these
operations divides by zero (the model returns `none`, the Rust panic); and
at the reachable state `pscMaxState` (PSC = 0xFFFF) `tickrate()` itself
panics on its u16 `psc + 1` overflow, so these operations panic there as
well. -/
theorem tickrate_zero_divides_by_zero (s : Stm32.TimRegs) (r : Nat)
    (ht : Stm32.tickrate s = some r) (hr : 0 < r) :
    (Stm32.elapsed_millis s).isSome ∧ (Stm32.elapsed_secs s).isSome ∧
    (Stm32.max_millis s).isSome ∧ (Stm32.max_secs s).isSome ∧
    Stm32.tickrate zeroRateState = some 0 ∧
    Stm32.elapsed_millis zeroRateState = none ∧
    Stm32.elapsed_secs zeroRateState = none ∧
    Stm32.max_millis zeroRateState = none ∧
    Stm32.max_secs zeroRateState = none ∧
    Stm32.tickrate pscMaxState = none ∧
    Stm32.elapsed_millis pscMaxState = none ∧
    Stm32.elapsed_secs pscMaxState = none ∧
    Stm32.max_millis pscMaxState = none ∧
    Stm32.max_secs pscMaxState = none := by
  have hne : r ≠ 0 := Nat.pos_iff_ne_zero.mp hr
  refine ⟨?_, ?_, ?_, ?_, rfl, rfl, rfl, rfl, rfl, rfl, rfl, rfl, rfl, rfl⟩
  · unfold Stm32.elapsed_millis
    split <;> simp [ht, hne]
  · unfold Stm32.elapsed_secs
    split <;> simp [ht, hne]
  · simp only [Stm32.max_millis, ht]
    simp [hne]
  · simp only [Stm32.max_secs, ht]
    simp [hne]

/-- Witness for C10 at tick rate 16. -/
theorem tickrate_zero_divides_by_zero_witness :
    (Stm32.elapsed_millis rate16State).isSome ∧
    Stm32.elapsed_millis zeroRateState = none :=
  ⟨(tickrate_zero_divides_by_zero rate16State 16 (by decide) (by decide)).1,
   (tickrate_zero_divides_by_zero rate16State 16 (by decide) (by decide)).2.2.2.2.2.1⟩

/-- C8: a `wait_until_*()` call on `EmbassyTimeTimer` returns the timer
state unchanged — it only reads the epoch cell — so abandoning
(cancelling) the wait has zero side effects, and a subsequent
`wait_until_millis` computes its deadline from the epoch `n0` established
by the original `start()`. -/
theorem wait_until_no_side_effects (hz n0 v w : Nat)
    (t0 : EmbTime.EmbassyTimeTimer) :
    (EmbTime.wait_until_secs hz (EmbTime.start t0 n0) v).2.1 = EmbTime.start t0 n0 ∧
    (EmbTime.wait_until_micros hz (EmbTime.start t0 n0) v).2.1 = EmbTime.start t0 n0 ∧
    (EmbTime.wait_until_millis hz (EmbTime.start t0 n0) v).2.1 = EmbTime.start t0 n0 ∧
    (EmbTime.wait_until_millis hz
        (EmbTime.wait_until_secs hz (EmbTime.start t0 n0) v).2.1 w).2.2
      = n0 + EmbTime.durFromMillis hz w :=
  ⟨rfl, rfl, rfl, rfl⟩

/-- C9: for `EmbassyTimeTimer` with any positive tick rate and a monotonic
clock reading `now` at or after the stored epoch, each of
`elapsed_micros/millis/secs()` returns `Err(OverflowError)` exactly when
the true elapsed value in that unit exceeds `u32::MAX` and otherwise
returns that value; overflow is judged independently per unit (at tick
rate 1 MHz and elapsed 10^13 ticks, `elapsed_secs` succeeds while
`elapsed_micros` fails), with no latched overflow state. -/
theorem elapsed_overflow_per_unit (hz : Nat) (t : EmbTime.EmbassyTimeTimer)
    (now : Nat) (hhz : 0 < hz) :
    EmbTime.elapsed_micros hz t now =
      (if (now - t.epoch) * 1000000 / hz ≤ u32Max
       then .ok ((now - t.epoch) * 1000000 / hz) else .error {}) ∧
    EmbTime.elapsed_millis hz t now =
      (if (now - t.epoch) * 1000 / hz ≤ u32Max
       then .ok ((now - t.epoch) * 1000 / hz) else .error {}) ∧
    EmbTime.elapsed_secs hz t now =
      (if (now - t.epoch) / hz ≤ u32Max
       then .ok ((now - t.epoch) / hz) else .error {}) ∧
    EmbTime.elapsed_secs 1000000 ⟨0⟩ 10000000000000 = .ok 10000000 ∧
    EmbTime.elapsed_micros 1000000 ⟨0⟩ 10000000000000 = .error {} := by
  refine ⟨?_, ?_, ?_, by decide, by decide⟩
  · unfold EmbTime.elapsed_micros
    rw [instantAsMicros_eq]
    rfl
  · unfold EmbTime.elapsed_millis
    rw [instantAsMillis_eq]
    rfl
  · rfl

/-- Witness for C9 at tick rate 1 MHz, epoch 0, now 2^21 ticks. -/
theorem elapsed_overflow_per_unit_witness :
    EmbTime.elapsed_micros 1000000 ⟨0⟩ 2097152 = .ok 2097152 := by
  have h := (elapsed_overflow_per_unit 1000000 ⟨0⟩ 2097152 (by decide)).1
  rw [h]
  decide

/-- C2 (code bug): `wait_until_micros/millis/secs()` on `EmbassyTimeTimer`
— the crate's only `Alarm` implementation — always returns `Ok(())` and
suspends until the computed deadline; it never performs the bound check
against `max_*()` promised by the `Alarm` trait documentation in
`src/lib.rs`. Concretely, at `TICK_HZ = 5_242_880_000` the bound
`max_secs()` is below 4_000_000_000, yet `wait_until_secs(4_000_000_000)`
still returns `Ok` instead of `Err(OverflowError)`. -/
theorem wait_until_never_checks_bounds :
    (∀ (hz v : Nat) (t : EmbTime.EmbassyTimeTimer),
      (EmbTime.wait_until_micros hz t v).1 = .ok () ∧
      (EmbTime.wait_until_millis hz t v).1 = .ok () ∧
      (EmbTime.wait_until_secs hz t v).1 = .ok ()) ∧
    EmbTime.max_secs 5242880000 < 4000000000 ∧
    (EmbTime.wait_until_secs 5242880000 ⟨0⟩ 4000000000).1 = .ok () := by
  refine ⟨fun hz v t => ⟨rfl, rfl, rfl⟩, ?_, rfl⟩
  decide
